import Mathlib

/-!
Verification of the grid-stability forecast pipeline's spread-compression,
seasonal-adjustment, tariff pass-through, dataset-merger and composer logic.

Definitions are shallow embeddings of the Python source:
  * `power_law_spread`      — src/analysis/3_spread_model.py, `power_law_spread`
                              (identical copy in src/analysis/5_combined_forecast.py)
  * `alpha_caiso`, `alpha_modo`, `alpha_central`
                            — src/analysis/3_spread_model.py, `calibrate_params`
  * `seasonal_adjustment`   — src/analysis/5_combined_forecast.py, `seasonal_adjustment`
  * tariff artifacts, composer row building and parameter loading
                            — src/analysis/4_tariff_model.py and 5_combined_forecast.py, `main`
  * dataset merger          — src/analysis/3_spread_model.py, `load_and_merge`

Floating-point arithmetic of the source is modelled over the reals (the real
power `Real.rpow` stands for Python's `**`); dictionary/JSON artifacts are
modelled as association lists.
-/

namespace GridStability

/-- Power-law spread compression with floor, from `power_law_spread` in
src/analysis/3_spread_model.py (lines 140–149):
`spread = floor + (spread_ref - floor) * (bess_ref / bess_gw) ** alpha`.
Argument order follows the Python signature. -/
noncomputable def power_law_spread (bess_gw floor spread_ref bess_ref alpha : ℝ) : ℝ :=
  floor + (spread_ref - floor) * (bess_ref / bess_gw) ^ alpha

/-- CAISO-derived elasticity, `alpha_caiso = 0.65` in `calibrate_params`
(src/analysis/3_spread_model.py line 206); saved as `alpha_high`. -/
def alpha_caiso : ℝ := 0.65

/-- Modo-Germany elasticity, `alpha_modo = 0.46` in `calibrate_params`
(line 207); saved as `alpha_low`. -/
def alpha_modo : ℝ := 0.46

/-- Central elasticity, `alpha_central = 0.50` in `calibrate_params`
(line 208); saved as `alpha`. -/
def alpha_central : ℝ := 0.50

/-- C1. Anchor property: for every `floor`, `spread_ref`, `alpha` and every
`bess_ref > 0`, the power-law evaluated at capacity `C = bess_ref` returns
exactly `spread_ref`. -/
theorem power_law_anchor (floor spread_ref alpha bess_ref : ℝ)
    (hb : 0 < bess_ref) :
    power_law_spread bess_ref floor spread_ref bess_ref alpha = spread_ref := by
  unfold power_law_spread
  rw [div_self hb.ne', Real.one_rpow]
  ring

/-- Witness for C1 at `floor = 0`, `spread_ref = 120`, `alpha = 1/2`,
`bess_ref = 2`. -/
theorem power_law_anchor_witness :
    0 < (2 : ℝ) ∧ power_law_spread 2 0 120 2 (1/2) = 120 :=
  ⟨by norm_num, power_law_anchor 0 120 (1/2) 2 (by norm_num)⟩

/-- C2. Strict monotone decrease in capacity: for `alpha > 0`, `bess_ref > 0`,
`spread_ref > floor` and `0 < C1 < C2`, the modeled spread at `C2` is strictly
below the modeled spread at `C1`. -/
theorem power_law_strict_anti (floor spread_ref bess_ref alpha C1 C2 : ℝ)
    (halpha : 0 < alpha) (hb : 0 < bess_ref) (hsf : floor < spread_ref)
    (hC1 : 0 < C1) (hC12 : C1 < C2) :
    power_law_spread C2 floor spread_ref bess_ref alpha <
      power_law_spread C1 floor spread_ref bess_ref alpha := by
  have hC2 : 0 < C2 := hC1.trans hC12
  have hx : bess_ref / C2 < bess_ref / C1 := div_lt_div_of_pos_left hb hC1 hC12
  have hx0 : (0 : ℝ) ≤ bess_ref / C2 := (div_pos hb hC2).le
  have hpow : (bess_ref / C2) ^ alpha < (bess_ref / C1) ^ alpha :=
    Real.rpow_lt_rpow hx0 hx halpha
  have hmul := mul_lt_mul_of_pos_left hpow (sub_pos.mpr hsf)
  unfold power_law_spread
  linarith

/-- Witness for C2 at `floor = 13.5`, `spread_ref = 120`, `bess_ref = 6.5`,
`alpha = 1/2`, `C1 = 7`, `C2 = 13`. -/
theorem power_law_strict_anti_witness :
    (0 : ℝ) < 1/2 ∧ (0 : ℝ) < 6.5 ∧ (13.5 : ℝ) < 120 ∧ (0 : ℝ) < 7 ∧ (7 : ℝ) < 13 ∧
      power_law_spread 13 13.5 120 6.5 (1/2) < power_law_spread 7 13.5 120 6.5 (1/2) :=
  ⟨by norm_num, by norm_num, by norm_num, by norm_num, by norm_num,
    power_law_strict_anti 13.5 120 6.5 (1/2) 7 13
      (by norm_num) (by norm_num) (by norm_num) (by norm_num) (by norm_num)⟩

/-- C3. Strict floor bound: for every finite `C > 0`, `alpha > 0`,
`bess_ref > 0` and parameters with `spread_ref > floor > 0`, the modeled
spread stays strictly above the floor. -/
theorem power_law_above_floor (C floor spread_ref bess_ref alpha : ℝ)
    (hC : 0 < C) (halpha : 0 < alpha) (hb : 0 < bess_ref)
    (hsf : floor < spread_ref) (hf : 0 < floor) :
    floor < power_law_spread C floor spread_ref bess_ref alpha := by
  have hpow : 0 < (bess_ref / C) ^ alpha :=
    Real.rpow_pos_of_pos (div_pos hb hC) alpha
  have hmul : 0 < (spread_ref - floor) * (bess_ref / C) ^ alpha :=
    mul_pos (sub_pos.mpr hsf) hpow
  unfold power_law_spread
  linarith

/-- Witness for C3 at `C = 20`, `floor = 13.5`, `spread_ref = 120`,
`bess_ref = 6.5`, `alpha = 1/2`. -/
theorem power_law_above_floor_witness :
    (0 : ℝ) < 20 ∧ (0 : ℝ) < 1/2 ∧ (0 : ℝ) < 6.5 ∧ (13.5 : ℝ) < 120 ∧ (0 : ℝ) < 13.5 ∧
      (13.5 : ℝ) < power_law_spread 20 13.5 120 6.5 (1/2) :=
  ⟨by norm_num, by norm_num, by norm_num, by norm_num, by norm_num,
    power_law_above_floor 20 13.5 120 6.5 (1/2)
      (by norm_num) (by norm_num) (by norm_num) (by norm_num) (by norm_num)⟩

/-- C4. Elasticity ordering: on the compressing side `C > bess_ref` (with
`bess_ref > 0` and `spread_ref > floor`), the calibrated elasticities
`alpha_modo = 0.46 ≤ alpha_central = 0.50 ≤ alpha_caiso = 0.65` give
`spread(alpha_caiso) ≤ spread(alpha_central) ≤ spread(alpha_modo)`:
higher elasticity compresses more. -/
theorem power_law_elasticity_order (C floor spread_ref bess_ref : ℝ)
    (hb : 0 < bess_ref) (hC : bess_ref < C) (hsf : floor < spread_ref) :
    power_law_spread C floor spread_ref bess_ref alpha_caiso ≤
        power_law_spread C floor spread_ref bess_ref alpha_central ∧
      power_law_spread C floor spread_ref bess_ref alpha_central ≤
        power_law_spread C floor spread_ref bess_ref alpha_modo := by
  have hC0 : 0 < C := hb.trans hC
  have hx0 : 0 < bess_ref / C := div_pos hb hC0
  have hx1 : bess_ref / C < 1 := (div_lt_one hC0).mpr hC
  have hnn : (0 : ℝ) ≤ spread_ref - floor := (sub_pos.mpr hsf).le
  have h1 : (bess_ref / C) ^ alpha_caiso ≤ (bess_ref / C) ^ alpha_central :=
    Real.rpow_le_rpow_of_exponent_ge hx0 hx1.le
      (by unfold alpha_central alpha_caiso; norm_num)
  have h2 : (bess_ref / C) ^ alpha_central ≤ (bess_ref / C) ^ alpha_modo :=
    Real.rpow_le_rpow_of_exponent_ge hx0 hx1.le
      (by unfold alpha_modo alpha_central; norm_num)
  constructor
  · have := mul_le_mul_of_nonneg_left h1 hnn
    unfold power_law_spread
    linarith
  · have := mul_le_mul_of_nonneg_left h2 hnn
    unfold power_law_spread
    linarith

/-- Witness for C4 at `C = 13`, `floor = 13.5`, `spread_ref = 120`,
`bess_ref = 6.5`. -/
theorem power_law_elasticity_order_witness :
    (0 : ℝ) < 6.5 ∧ (6.5 : ℝ) < 13 ∧ (13.5 : ℝ) < 120 ∧
      (power_law_spread 13 13.5 120 6.5 alpha_caiso ≤
          power_law_spread 13 13.5 120 6.5 alpha_central ∧
        power_law_spread 13 13.5 120 6.5 alpha_central ≤
          power_law_spread 13 13.5 120 6.5 alpha_modo) :=
  ⟨by norm_num, by norm_num, by norm_num,
    power_law_elasticity_order 13 13.5 120 6.5
      (by norm_num) (by norm_num) (by norm_num)⟩

/-- Key under which month `m`'s OLS offset is stored:
`month_key = f"month_{month}"` (src/analysis/5_combined_forecast.py line 66). -/
def month_key (month : ℕ) : String := "month_" ++ toString month

/-- Embeds `month_effect = month_coefs.get(month_key, 0.0)`
(src/analysis/5_combined_forecast.py line 67). -/
def month_effect (month_coefs : List (String × ℝ)) (month : ℕ) : ℝ :=
  (month_coefs.lookup (month_key month)).getD 0

/-- Embeds `all_effects = [0.0] + [month_coefs.get(f"month_{m}", 0.0) for m in range(2, 13)]`
(line 70): the January reference contributes a literal zero, months 2–12 are
looked up. -/
def all_effects (month_coefs : List (String × ℝ)) : List ℝ :=
  0 :: ([2, 3, 4, 5, 6, 7, 8, 9, 10, 11, 12].map (month_effect month_coefs))

/-- Embeds `avg_effect = np.mean(all_effects)` (line 71): the mean of the twelve
offsets. -/
noncomputable def avg_effect (month_coefs : List (String × ℝ)) : ℝ :=
  (all_effects month_coefs).sum / 12

/-- Multiplicative seasonal factor, `seasonal_adjustment` in
src/analysis/5_combined_forecast.py (lines 57–75):
`1.0 + (month_effect - avg_effect) / spread_ref`. -/
noncomputable def seasonal_adjustment (month : ℕ) (month_coefs : List (String × ℝ))
    (spread_ref : ℝ) : ℝ :=
  1 + (month_effect month_coefs month - avg_effect month_coefs) / spread_ref

/-- C5. Seasonal round-trip: for any coefficient map whose month-1 offset is
zero (month 1 carries no dummy) and any `spread_ref ≠ 0`, the unweighted mean
over months 1..12 of the seasonal factors is exactly 1, so the annual level
implied by the power law is preserved. -/
theorem seasonal_adjustment_mean_one (month_coefs : List (String × ℝ))
    (spread_ref : ℝ) (hs : spread_ref ≠ 0)
    (h1 : month_effect month_coefs 1 = 0) :
    (([1, 2, 3, 4, 5, 6, 7, 8, 9, 10, 11, 12].map
        (fun m => seasonal_adjustment m month_coefs spread_ref)).sum) / 12 = 1 := by
  simp only [List.map_cons, List.map_nil, List.sum_cons, List.sum_nil,
    seasonal_adjustment, avg_effect, all_effects]
  rw [h1]
  field_simp
  ring

/-- Witness for C5 at `month_coefs = [("month_2", 3), ("month_7", -5)]`,
`spread_ref = 2`. -/
theorem seasonal_adjustment_mean_one_witness :
    (2 : ℝ) ≠ 0 ∧ month_effect [("month_2", (3 : ℝ)), ("month_7", -5)] 1 = 0 ∧
      (([1, 2, 3, 4, 5, 6, 7, 8, 9, 10, 11, 12].map
          (fun m => seasonal_adjustment m [("month_2", (3 : ℝ)), ("month_7", -5)] 2)).sum)
        / 12 = 1 :=
  ⟨by norm_num, by rfl,
    seasonal_adjustment_mean_one [("month_2", (3 : ℝ)), ("month_7", -5)] 2
      (by norm_num) (by rfl)⟩

/-- A value of the JSON parameter artifacts written by
src/analysis/3_spread_model.py and 4_tariff_model.py: a number, a string,
JSON `null`, or a flat string-to-number object (used for `month_coefs`). -/
inductive JVal where
  | num (x : ℝ)
  | str (s : String)
  | jnull
  | obj (kvs : List (String × ℝ))

/-- A parameter artifact: a JSON object modelled as an association list. -/
abbrev Artifact := List (String × JVal)

/-- Python's `d.get(key, default)` restricted to numeric values, as the
Composer uses it on numeric parameters (a present non-numeric value would make
the Python arithmetic fail; the artifacts only store numbers there). -/
def getNumD (p : Artifact) (k : String) (d : ℝ) : ℝ :=
  match p.lookup k with
  | some (JVal.num x) => x
  | _ => d

/-- Python's `d[key]` on numeric values: `none` models the `KeyError` raised
on an absent key. -/
def getNum? (p : Artifact) (k : String) : Option ℝ :=
  match p.lookup k with
  | some (JVal.num x) => some x
  | _ => none

/-- Embeds `price_multiplier = tariff_params.get("price_multiplier", 1.31)`
(src/analysis/5_combined_forecast.py line 126). -/
def price_multiplier_of (tariff_params : Artifact) : ℝ :=
  getNumD tariff_params "price_multiplier" 1.31

/-- The Composer's tariff step, lines 168–169 of
src/analysis/5_combined_forecast.py: `agile_spread = price_multiplier * ws`. -/
def agile_spread_of (tariff_params : Artifact) (ws : ℝ) : ℝ :=
  price_multiplier_of tariff_params * ws

/-- Modelled from the spec (for comparison with `agile_spread_of`, which is
the code's tariff step): the spec's §4.6 step 4 pass-through affine transform
`spread_multiplier * ws + spread_intercept` using the PassThroughParams
fields, with the degraded defaults multiplier 1 and intercept 0. -/
def spec_pass_through_spread (tariff_params : Artifact) (ws : ℝ) : ℝ :=
  getNumD tariff_params "spread_multiplier" 1 * ws +
    getNumD tariff_params "spread_intercept" 0

/-- One composed forecast row, from the base-case loop of `main` in
src/analysis/5_combined_forecast.py (lines 153–199), as the (column, value)
pairs of the `results.append({...})` dict literal (the `date` column, a
timestamp, is keyed by the `month` argument here; all other columns are
numeric or missing). `ltw_cap`/`fs_cap` are the scenario capacities when the
scenario table has a row at this date (lines 175–188). -/
noncomputable def compose_month (floor spread_ref bess_ref alpha : ℝ)
    (month_coefs : List (String × ℝ)) (tariff_params : Artifact)
    (month : ℕ) (bess_gw wind_gen : ℝ) (ltw_cap fs_cap : Option ℝ) :
    List (String × Option ℝ) :=
  let ws_annual := power_law_spread bess_gw floor spread_ref bess_ref alpha
  let season_mult := seasonal_adjustment month month_coefs spread_ref
  let ws := max (ws_annual * season_mult) 0
  let agile_spread := agile_spread_of tariff_params ws
  let ws_leading := ltw_cap.map (fun c =>
    max (power_law_spread c floor spread_ref bess_ref alpha * season_mult) 0)
  let ws_falling := fs_cap.map (fun c =>
    max (power_law_spread c floor spread_ref bess_ref alpha * season_mult) 0)
  [("bess_gw", some bess_gw),
   ("wind_gen_gw", some wind_gen),
   ("wholesale_spread_mwh", some ws),
   ("agile_spread_mwh", some agile_spread),
   ("agile_spread_p_kwh", some (agile_spread / 10)),
   ("spread_leading_the_way", ws_leading),
   ("spread_falling_short", ws_falling)]

/-- C6 counterexample: with a pass-through artifact whose fitted spread
transform is `2 * ws + 5` (and price multiplier 1), the Composer's tariff
spread at `ws = 10` is `1 * 10 = 10`, not the affine value `25` the claim
describes: the code multiplies by `price_multiplier` and never applies
`spread_multiplier` or `spread_intercept`. -/
theorem composer_ignores_spread_affine :
    agile_spread_of
        [("spread_multiplier", JVal.num 2), ("spread_intercept", JVal.num 5),
         ("price_multiplier", JVal.num 1)] 10 ≠
      spec_pass_through_spread
        [("spread_multiplier", JVal.num 2), ("spread_intercept", JVal.num 5),
         ("price_multiplier", JVal.num 1)] 10 := by
  show (1 : ℝ) * 10 ≠ 2 * 10 + 5
  norm_num

/-- C6 amended: the Composer's tariff step multiplies the seasonally
adjusted, zero-clamped wholesale spread by the `price_multiplier` of the
pass-through artifact (defaulting to 1.31), applies no intercept, and also
reports the same value divided by 10 as the p/kWh column. -/
theorem composer_tariff_step (floor spread_ref bess_ref alpha : ℝ)
    (month_coefs : List (String × ℝ)) (tariff_params : Artifact)
    (month : ℕ) (bess_gw wind_gen : ℝ) (ltw_cap fs_cap : Option ℝ) :
    (compose_month floor spread_ref bess_ref alpha month_coefs tariff_params
          month bess_gw wind_gen ltw_cap fs_cap).lookup "wholesale_spread_mwh" =
        some (some (max (power_law_spread bess_gw floor spread_ref bess_ref alpha *
          seasonal_adjustment month month_coefs spread_ref) 0)) ∧
      (compose_month floor spread_ref bess_ref alpha month_coefs tariff_params
          month bess_gw wind_gen ltw_cap fs_cap).lookup "agile_spread_mwh" =
        some (some (price_multiplier_of tariff_params *
          max (power_law_spread bess_gw floor spread_ref bess_ref alpha *
            seasonal_adjustment month month_coefs spread_ref) 0)) ∧
      (compose_month floor spread_ref bess_ref alpha month_coefs tariff_params
          month bess_gw wind_gen ltw_cap fs_cap).lookup "agile_spread_p_kwh" =
        some (some (price_multiplier_of tariff_params *
          max (power_law_spread bess_gw floor spread_ref bess_ref alpha *
            seasonal_adjustment month month_coefs spread_ref) 0 / 10)) := by
  refine ⟨?_, ?_, ?_⟩ <;> rfl

/-- C7 counterexample: a concrete composed row (parameters
`floor = 13.5`, `spread_ref = 120`, `bess_ref = 6.5`, `alpha = 0.5`, month 1,
base capacity 8 GW, scenario capacities 9 and 7 GW) has exactly the seven
value columns written by `results.append` (lines 190–199 of
src/analysis/5_combined_forecast.py) besides `date`: the scenario-fan columns
are there, but no column holds the alpha_low/alpha_high elasticity-band
spreads, which are computed only inside the sensitivity plot (lines 293–303)
and never persisted. -/
theorem forecast_row_lacks_elasticity_band :
    (compose_month 13.5 120 6.5 0.5 [] [] 1 8 5 (some 9) (some 7)).map Prod.fst =
        ["bess_gw", "wind_gen_gw", "wholesale_spread_mwh", "agile_spread_mwh",
         "agile_spread_p_kwh", "spread_leading_the_way", "spread_falling_short"] ∧
      "spread_alpha_low" ∉
        (compose_month 13.5 120 6.5 0.5 [] [] 1 8 5 (some 9) (some 7)).map Prod.fst ∧
      "spread_alpha_high" ∉
        (compose_month 13.5 120 6.5 0.5 [] [] 1 8 5 (some 9) (some 7)).map Prod.fst := by
  have h : (compose_month 13.5 120 6.5 0.5 [] [] 1 8 5 (some 9) (some 7)).map Prod.fst =
      ["bess_gw", "wind_gen_gw", "wholesale_spread_mwh", "agile_spread_mwh",
       "agile_spread_p_kwh", "spread_leading_the_way", "spread_falling_short"] := rfl
  refine ⟨h, ?_, ?_⟩ <;> rw [h] <;> decide

/-- C7 amended: every persisted forecast row carries, besides `date`, exactly
the base-case columns (`bess_gw`, `wind_gen_gw`, wholesale spread, tariff
spread in £/MWh and in p/kWh) and the two scenario-fan columns
(`spread_leading_the_way`, `spread_falling_short`, present as values exactly
when the scenario table has that date); the elasticity-band (alpha_low /
alpha_high) spreads are not part of the table. -/
theorem forecast_row_columns (floor spread_ref bess_ref alpha : ℝ)
    (month_coefs : List (String × ℝ)) (tariff_params : Artifact)
    (month : ℕ) (bess_gw wind_gen : ℝ) (ltw_cap fs_cap : Option ℝ) :
    (compose_month floor spread_ref bess_ref alpha month_coefs tariff_params
          month bess_gw wind_gen ltw_cap fs_cap).map Prod.fst =
        ["bess_gw", "wind_gen_gw", "wholesale_spread_mwh", "agile_spread_mwh",
         "agile_spread_p_kwh", "spread_leading_the_way", "spread_falling_short"] ∧
      (compose_month floor spread_ref bess_ref alpha month_coefs tariff_params
          month bess_gw wind_gen ltw_cap fs_cap).lookup "spread_leading_the_way" =
        some (ltw_cap.map (fun c =>
          max (power_law_spread c floor spread_ref bess_ref alpha *
            seasonal_adjustment month month_coefs spread_ref) 0)) ∧
      (compose_month floor spread_ref bess_ref alpha month_coefs tariff_params
          month bess_gw wind_gen ltw_cap fs_cap).lookup "spread_falling_short" =
        some (fs_cap.map (fun c =>
          max (power_law_spread c floor spread_ref bess_ref alpha *
            seasonal_adjustment month month_coefs spread_ref) 0)) := by
  refine ⟨?_, ?_, ?_⟩ <;> rfl

/-- The degraded pass-through artifact written when no Elexon wholesale file
exists, from the `else` branch of `main` in src/analysis/4_tariff_model.py
(lines 152–161). `n_agile` is the Agile row count stored as `n_obs`. -/
def degraded_tariff_params (n_agile : ℕ) : Artifact :=
  [("spread_multiplier", JVal.num 1),
   ("spread_intercept", JVal.num 0),
   ("spread_r_squared", JVal.jnull),
   ("price_multiplier", JVal.num 1),
   ("price_adder_mwh", JVal.num 0),
   ("price_r_squared", JVal.jnull),
   ("n_obs", JVal.num n_agile),
   ("note", JVal.str "No Elexon cross-validation available — using Agile prices as direct proxy")]

/-- C8. Degraded pass-through mode: without ground-truth wholesale data the
artifact is the exact identity mapping — both multipliers 1, intercept and
adder 0 — the composed tariff spread equals the input wholesale spread
exactly, and the artifact carries the explicit `note` flag marking the
degraded state. -/
theorem degraded_pass_through_identity (n_agile : ℕ) (ws : ℝ) :
    getNum? (degraded_tariff_params n_agile) "spread_multiplier" = some 1 ∧
      getNum? (degraded_tariff_params n_agile) "spread_intercept" = some 0 ∧
      getNum? (degraded_tariff_params n_agile) "price_multiplier" = some 1 ∧
      getNum? (degraded_tariff_params n_agile) "price_adder_mwh" = some 0 ∧
      agile_spread_of (degraded_tariff_params n_agile) ws = ws ∧
      ((degraded_tariff_params n_agile).lookup "note").isSome = true := by
  refine ⟨rfl, rfl, rfl, rfl, ?_, rfl⟩
  show (1 : ℝ) * ws = ws
  exact one_mul ws

/-- The parameters `main` of src/analysis/5_combined_forecast.py extracts
before the forecast loop (lines 118–126). -/
structure ComposerConfig where
  floor : ℝ
  spread_ref : ℝ
  bess_ref : ℝ
  alpha : ℝ
  alpha_low : ℝ
  alpha_high : ℝ
  month_coefs : List (String × ℝ)
  price_multiplier : ℝ

/-- Embeds `month_coefs = spread_params.get("month_coefs", {})` (line 124): the
stored object when present, the empty mapping otherwise. -/
def month_coefs_of (spread_params : Artifact) : List (String × ℝ) :=
  match spread_params.lookup "month_coefs" with
  | some (JVal.obj kvs) => kvs
  | _ => []

/-- Parameter extraction of `main` (src/analysis/5_combined_forecast.py lines
115–126): `floor`, `spread_ref`, `bess_ref`, `alpha`, `alpha_low`,
`alpha_high` are read with `spread_params[...]`, whose `KeyError` on an
absent key aborts the run before any forecast row is produced (`none` here);
`month_coefs` and `price_multiplier` are read with `.get` defaults. -/
def load_composer_config (spread_params tariff_params : Artifact) :
    Option ComposerConfig :=
  match getNum? spread_params "floor", getNum? spread_params "spread_ref",
      getNum? spread_params "bess_ref", getNum? spread_params "alpha",
      getNum? spread_params "alpha_low", getNum? spread_params "alpha_high" with
  | some f, some sr, some br, some a, some al, some ah =>
      some ⟨f, sr, br, a, al, ah, month_coefs_of spread_params,
        price_multiplier_of tariff_params⟩
  | _, _, _, _, _, _ => none

/-- C10. Missing-key behaviour of the Composer: when the pass-through
artifact lacks `price_multiplier` and the calibration artifact lacks
`month_coefs`, any configuration the Composer still builds silently uses the
hardcoded default 1.31 and the empty coefficient map; whereas an absent
`floor`, `spread_ref`, `bess_ref` or `alpha` key makes the extraction fail
before any forecast row is produced. -/
theorem composer_missing_key_behaviour (spread_params tariff_params : Artifact)
    (hpm : tariff_params.lookup "price_multiplier" = none)
    (hmc : spread_params.lookup "month_coefs" = none) :
    (∀ cfg, load_composer_config spread_params tariff_params = some cfg →
        cfg.price_multiplier = 1.31 ∧ cfg.month_coefs = []) ∧
      ((spread_params.lookup "floor" = none ∨
          spread_params.lookup "spread_ref" = none ∨
          spread_params.lookup "bess_ref" = none ∨
          spread_params.lookup "alpha" = none) →
        load_composer_config spread_params tariff_params = none) := by
  constructor
  · intro cfg hcfg
    have hpm' : price_multiplier_of tariff_params = 1.31 := by
      unfold price_multiplier_of getNumD
      rw [hpm]
    have hmc' : month_coefs_of spread_params = [] := by
      unfold month_coefs_of
      rw [hmc]
    unfold load_composer_config at hcfg
    revert hcfg
    rcases getNum? spread_params "floor" with _ | f <;>
      rcases getNum? spread_params "spread_ref" with _ | sr <;>
      rcases getNum? spread_params "bess_ref" with _ | br <;>
      rcases getNum? spread_params "alpha" with _ | a <;>
      rcases getNum? spread_params "alpha_low" with _ | al <;>
      rcases getNum? spread_params "alpha_high" with _ | ah <;>
      intro hcfg <;>
      first
        | exact Option.noConfusion hcfg
        | (cases hcfg; exact ⟨hpm', hmc'⟩)
  · intro hmiss
    unfold load_composer_config
    have : ∀ k, spread_params.lookup k = none → getNum? spread_params k = none := by
      intro k hk
      unfold getNum?
      rw [hk]
    rcases hmiss with h | h | h | h
    · rw [this _ h]
    · rcases getNum? spread_params "floor" with _ | f
      · rfl
      · rw [this _ h]
    · rcases getNum? spread_params "floor" with _ | f
      · rfl
      rcases getNum? spread_params "spread_ref" with _ | sr
      · rfl
      · rw [this _ h]
    · rcases getNum? spread_params "floor" with _ | f
      · rfl
      rcases getNum? spread_params "spread_ref" with _ | sr
      · rfl
      rcases getNum? spread_params "bess_ref" with _ | br
      · rfl
      · rw [this _ h]

/-- Concrete calibration artifact for the C10 witness: the six core keys are
present, `month_coefs` is absent. -/
def spread_params_c10 : Artifact :=
  [("floor", JVal.num 13.5), ("spread_ref", JVal.num 120),
   ("bess_ref", JVal.num 6.5), ("alpha", JVal.num 0.5),
   ("alpha_low", JVal.num 0.46), ("alpha_high", JVal.num 0.65)]

/-- The configuration the Composer builds from `spread_params_c10` and an
empty pass-through artifact. -/
def composer_config_c10 : ComposerConfig :=
  ⟨13.5, 120, 6.5, 0.5, 0.46, 0.65, [], 1.31⟩

/-- Witness for C10: with the six core keys present, no `month_coefs` and no
`price_multiplier`, extraction succeeds with the 1.31 default and the empty
coefficient map. -/
theorem composer_missing_key_behaviour_witness :
    load_composer_config spread_params_c10 [] = some composer_config_c10 ∧
      composer_config_c10.price_multiplier = 1.31 ∧
      composer_config_c10.month_coefs = [] :=
  ⟨rfl, (composer_missing_key_behaviour spread_params_c10 [] rfl rfl).1
      composer_config_c10 rfl |>.1,
    (composer_missing_key_behaviour spread_params_c10 [] rfl rfl).1
      composer_config_c10 rfl |>.2⟩

/-- One row of `bess_capacity_monthly.csv` as `load_and_merge` uses it
(src/analysis/3_spread_model.py lines 67–72): the month (`year_month`,
encoded as a number), the capacity, and the `source` tag. Exact rationals
stand for the float capacities. -/
structure BessRow where
  year_month : ℕ
  bess_capacity_gw : ℚ
  source : String

/-- One row of the daily spread series with its derived `year_month` column
(line 74). -/
structure SpreadRow where
  year_month : ℕ
  spread : ℚ

/-- One row of the daily panel after the capacity mapping: `bess_gw` is
`none` where pandas' `.map` produced NaN (no matching month). -/
structure PanelRow where
  year_month : ℕ
  spread : ℚ
  bess_gw : Option ℚ

/-- Embeds `bess_lookup = bess[bess["source"] == "historic"].set_index("year_month")["bess_capacity_gw"]`
(line 72): the month-to-capacity mapping taken from historic rows only. -/
def bess_lookup_of (bess : List BessRow) : List (ℕ × ℚ) :=
  (bess.filter (fun b => b.source == "historic")).map
    (fun b => (b.year_month, b.bess_capacity_gw))

/-- Embeds `spread["bess_gw"] = spread["year_month"].map(bess_lookup)` (line 75):
broadcast the monthly capacity onto each daily row, leaving a hole where the
month is unknown. -/
def map_capacity (bess : List BessRow) (rows : List SpreadRow) : List PanelRow :=
  rows.map (fun r =>
    ⟨r.year_month, r.spread, (bess_lookup_of bess).lookup r.year_month⟩)

/-- Embeds `spread = spread.dropna(subset=["bess_gw"])` (line 85) applied after the
capacity mapping: the merged daily panel of `load_and_merge`. -/
def load_and_merge (bess : List BessRow) (rows : List SpreadRow) :
    List PanelRow :=
  (map_capacity bess rows).filter (fun r => r.bess_gw.isSome)

/-- C9. Merger invariant: a row belongs to the merged daily panel exactly
when it comes from a daily row whose month has a matching historic capacity,
and then its `bess_gw` is precisely that month's capacity (`some c`, never
`none` and never a defaulted zero); daily rows whose month has no match are
dropped. -/
theorem merged_panel_capacity (bess : List BessRow) (rows : List SpreadRow)
    (r : PanelRow) :
    r ∈ load_and_merge bess rows ↔
      ∃ s ∈ rows, ∃ c, (bess_lookup_of bess).lookup s.year_month = some c ∧
        r = ⟨s.year_month, s.spread, some c⟩ := by
  unfold load_and_merge map_capacity
  rw [List.mem_filter, List.mem_map]
  constructor
  · rintro ⟨⟨s, hs, rfl⟩, hsome⟩
    rcases Option.isSome_iff_exists.mp hsome with ⟨c, hc⟩
    exact ⟨s, hs, c, hc, by rw [← hc]⟩
  · rintro ⟨s, hs, c, hc, rfl⟩
    exact ⟨⟨s, hs, by rw [hc]⟩, rfl⟩

end GridStability
